import Mathlib

/-!
Verification development for the SKEL alignment repository
(`skel/alignment/aligner.py`, `mot_loader.py`, `nimble2skel.py`).

The Python code is shallowly embedded: numpy/torch arrays become total
functions from (frame, channel, ...) indices into `ℚ` (or `ℝ` where the
source multiplies by `np.pi`), with the relevant dimensions carried
separately; the differentiable SKEL forward model, the SMPL model and the
anatomical loss helpers living outside the embedded files are abstracted as
function parameters; the LBFGS optimizer is abstracted as an arbitrary
update applied exactly to the tensors appearing in the `params` list handed
to it.
-/

namespace SkelFit

/-! ## Configuration (`SkelFitter.__init__`, aligner.py lines 51-91)

`self.cfg` is an `omegaconf` dictionary; `cfg.update(self.cfg_optim)`
overrides exactly the keys present in `self.cfg_optim` and keeps the rest
(`l_verts`, `l_time_loss`, `line_search_fn` are not listed there). -/

structure Cfg where
  lr : ℚ
  max_iter : ℕ
  num_steps : ℕ
  rot_only : Bool
  l_verts : ℚ
  l_verts_loose : ℚ
  l_time_loss : ℚ
  l_joint : ℚ
  l_scapula_loss : ℚ
  l_spine_loss : ℚ
  l_pose_loss : ℚ
  pose_reg_factor : ℚ
deriving DecidableEq

/-- The warm-start configuration `self.cfg` built in `SkelFitter.__init__`
(aligner.py lines 51-70). -/
def cfgWarm : Cfg :=
  { lr := 1
    max_iter := 25
    num_steps := 10
    rot_only := true
    l_verts := 1/10
    l_verts_loose := 0
    l_time_loss := 1/100
    l_joint := 0
    l_scapula_loss := 0
    l_spine_loss := 0
    l_pose_loss := 0
    pose_reg_factor := 10 }

/-- The effect of `cfg.update(self.cfg_optim)` (aligner.py lines 72-86,
177, 181): every key present in `self.cfg_optim` is overridden, the
remaining keys (`l_verts`, `l_time_loss`) are kept. -/
def cfgUpdateOptim (c : Cfg) : Cfg :=
  { c with
    lr := 1/10
    max_iter := 10
    num_steps := 10
    rot_only := false
    l_verts_loose := 500
    l_joint := 100
    l_scapula_loss := 1/100
    l_spine_loss := 1/1000
    l_pose_loss := 1/10000
    pose_reg_factor := 10 }

/-! ## Batch partition (`run_fit`, aligner.py lines 132-154) -/

/-- `if batch_size > self.nb_frames: batch_size = self.nb_frames`
(aligner.py lines 132-133). -/
def clampBatchSize (T bs : ℕ) : ℕ :=
  if bs > T then T else bs

/-- `n_batch = math.ceil(self.nb_frames/batch_size)` (aligner.py line 136),
as exact ceiling division. -/
def nBatch (T bs : ℕ) : ℕ :=
  (T + bs - 1) / bs

/-- `i_start = i * batch_size` (aligner.py line 153). -/
def iStart (bs i : ℕ) : ℕ := i * bs

/-- `i_end = min((i+1) * batch_size, self.nb_frames)` (aligner.py line 154). -/
def iEnd (T bs i : ℕ) : ℕ := min ((i + 1) * bs) T

/-- The frame indices `[i_start, i_end)` processed by batch `i`. -/
def batchFrames (T bs i : ℕ) : List ℕ :=
  List.range' (iStart bs i) (iEnd T bs i - iStart bs i)

/-- All frame indices processed by `run_fit`'s loop, in loop order:
the batch size is clamped, then batches `0, 1, ..., n_batch - 1` are
visited in increasing order. -/
def allBatchFrames (T bs0 : ℕ) : List ℕ :=
  let bs := clampBatchSize T bs0
  (List.range (nBatch T bs)).flatMap (batchFrames T bs)

lemma iStart_le_iEnd (T bs i : ℕ) (h : i * bs ≤ T) : iStart bs i ≤ iEnd T bs i := by
  simp only [iStart, iEnd, le_min_iff]
  constructor
  · exact Nat.mul_le_mul_right bs (Nat.le_succ i)
  · exact h

lemma range_bind_batchFrames (T bs : ℕ) (n : ℕ) :
    (List.range n).flatMap (batchFrames T bs) = List.range' 0 (min (n * bs) T) := by
  induction n with
  | zero => simp
  | succ n ih =>
    rw [List.range_succ, List.flatMap_append, ih]
    simp only [List.flatMap_cons, List.flatMap_nil, List.append_nil]
    unfold batchFrames iStart iEnd
    rcases le_or_lt (n * bs) T with h | h
    · have h1 : min (n * bs) T = n * bs := min_eq_left h
      rw [h1]
      have h2 : n * bs ≤ min ((n + 1) * bs) T := by
        simp only [le_min_iff]
        exact ⟨Nat.mul_le_mul_right bs (Nat.le_succ n), h⟩
      have := List.range'_append 0 (n * bs) (min ((n + 1) * bs) T - n * bs) 1
      simp only [Nat.one_mul, Nat.zero_add] at this
      rw [this]
      have h4 : min ((n + 1) * bs) T - n * bs + n * bs = min ((n + 1) * bs) T :=
        Nat.sub_add_cancel h2
      rw [h4]
    · have h1 : min (n * bs) T = T := min_eq_right h.le
      have h2 : min ((n + 1) * bs) T = T := by
        have : T ≤ (n + 1) * bs := le_trans h.le (Nat.mul_le_mul_right bs (Nat.le_succ n))
        exact min_eq_right this
      rw [h1, h2]
      have h3 : T - n * bs = 0 := Nat.sub_eq_zero_of_le h.le
      simp [h3]

lemma nBatch_mul_ge (T bs : ℕ) (hbs : 1 ≤ bs) : T ≤ nBatch T bs * bs := by
  unfold nBatch
  rcases Nat.eq_zero_or_pos T with hT | hT
  · simp [hT]
  · have h1 : T + bs - 1 = (T - 1) + bs := by omega
    rw [h1, Nat.add_div_right _ hbs]
    have h2 : T - 1 < ((T - 1) / bs + 1) * bs := by
      refine (Nat.div_lt_iff_lt_mul hbs).mp ?_
      exact Nat.lt_succ_self _
    have h3 : T.pred < ((T - 1) / bs + 1) * bs := by
      rwa [Nat.pred_eq_sub_one]
    exact Nat.le_of_pred_lt h3

/-! ## Initialization from the SMPL source (`run_fit`, aligner.py lines 114-123)

When `skel_data_init is None or force_recompute`, the target parameters
are seeded from the SMPL inputs.  Arrays are total functions; the real
arrays have shapes `(nb_frames, num_q_params)`, `(nb_frames, 10)` and
`(nb_frames, 3)`. -/

/-- `poses_skel = np.zeros((nb_frames, num_q_params))` followed by
`poses_skel[:, :3] = poses_in[:, :3].copy()` (aligner.py lines 116-117):
zero everywhere except the three global-orientation channels, copied from
the source pose. -/
def initPosesSkel (posesIn : ℕ → ℕ → ℚ) : ℕ → ℕ → ℚ :=
  fun t c => if c < 3 then posesIn t c else 0

/-- `betas_skel = np.zeros((nb_frames, 10)); betas_skel[:] = betas_in[..., :10].copy()`
(aligner.py lines 119-120): the first 10 source shape coefficients,
broadcast identically to every frame (the source supplies at least 10
coefficients per its input contract). -/
def initBetasSkel (betasIn : ℕ → ℚ) : ℕ → ℕ → ℚ :=
  fun _t j => if j < 10 then betasIn j else 0

/-- `trans_skel = trans_in.copy()` (aligner.py line 123). -/
def initTransSkel (transIn : ℕ → ℕ → ℚ) : ℕ → ℕ → ℚ :=
  fun t k => transIn t k

/-! ## The optimizer call (`SkelFitter.optim`, aligner.py lines 214-307)

`self.optim(params, poses, betas, trans, verts, cfg)` builds
`torch.optim.LBFGS(params, ...)` and repeatedly steps it.  PyTorch only
ever writes to the leaf tensors appearing in the `params` list; the three
call sites (lines 176, 178, 182) all pass `[trans, poses]`.  The numeric
effect of the LBFGS iterations is abstracted as an arbitrary per-tensor
update `upd` that may depend on the configuration and on all three input
tensors; tensors absent from `params` are returned unchanged. -/

/-- The tensors that `run_fit` may hand to the optimizer. -/
inductive FreeParam
  | pose
  | betas
  | trans
deriving DecidableEq

/-- The `params` argument used at each of the three `self.optim` call
sites in `run_fit` (aligner.py lines 176, 178, 182): `[trans, poses]`. -/
def fitParams : List FreeParam := [FreeParam.trans, FreeParam.pose]

/-- A batch's gradient-tracked tensors (`poses`, `betas`, `trans` of
aligner.py lines 169-171), each an array of per-frame values. -/
structure BatchParams (α : Type) where
  poses : ℕ → α
  betas : ℕ → α
  trans : ℕ → α

/-- One call to `SkelFitter.optim`: each tensor in the `params` list
receives the (arbitrary) LBFGS update `upd`; tensors not in the list are
left untouched. -/
def optim {α : Type} (upd : Cfg → FreeParam → BatchParams α → ℕ → α)
    (cfg : Cfg) (params : List FreeParam) (b : BatchParams α) : BatchParams α :=
  { poses := if FreeParam.pose ∈ params then upd cfg FreeParam.pose b else b.poses
    betas := if FreeParam.betas ∈ params then upd cfg FreeParam.betas b else b.betas
    trans := if FreeParam.trans ∈ params then upd cfg FreeParam.trans b else b.trans }

/-! ## The `run_fit` loop (aligner.py lines 145-211) -/

/-- The working whole-sequence arrays `poses_skel`, `betas_skel`,
`trans_skel` together with the mutable `self.cfg` dictionary. -/
structure FitState (α : Type) where
  poses : ℕ → α
  betas : ℕ → α
  trans : ℕ → α
  cfg : Cfg

/-- The batch slice taken at aligner.py lines 169-171:
`poses_skel[i_start:i_end]` etc. (frame `j` of the batch is sequence frame
`i_start + j`). -/
def batchOf {α : Type} (st : FitState α) (s : ℕ) : BatchParams α :=
  { poses := fun j => st.poses (s + j)
    betas := fun j => st.betas (s + j)
    trans := fun j => st.trans (s + j) }

/-- The optimization performed on the first batch when no prior
initialization was supplied (aligner.py lines 173-178): one warm-start
`optim` call with the current `self.cfg`, then `cfg.update(self.cfg_optim)`,
then a refinement `optim` call — both with params list `[trans, poses]`. -/
def firstBatchOptim {α : Type} (upd : Cfg → FreeParam → BatchParams α → ℕ → α)
    (cfg : Cfg) (b : BatchParams α) : BatchParams α :=
  let b1 := optim upd cfg fitParams b
  optim upd (cfgUpdateOptim cfg) fitParams b1

/-- The optimized tensors produced by iteration `i` of the batch loop,
together with the configuration after the in-place `cfg.update` calls
(aligner.py lines 173-182).  `noInit` is `i == 0 and not skel_data_init`. -/
def batchOutput {α : Type} (upd : Cfg → FreeParam → BatchParams α → ℕ → α)
    (bs : ℕ) (initProvided : Bool) (i : ℕ) (st : FitState α) :
    BatchParams α × Cfg :=
  let b0 := batchOf st (iStart bs i)
  if i = 0 ∧ initProvided = false then
    (firstBatchOptim upd st.cfg b0, cfgUpdateOptim st.cfg)
  else
    (optim upd (cfgUpdateOptim st.cfg) fitParams b0, cfgUpdateOptim st.cfg)

/-- One iteration of the batch loop: optimize the slice, then write the
result back and forward-fill all later frames with the batch's last frame
(aligner.py lines 185-191).  `betas_skel` receives only the forward fill:
there is no `betas_skel[i_start:i_end] = ...` line. -/
def runBatch {α : Type} (upd : Cfg → FreeParam → BatchParams α → ℕ → α)
    (T bs : ℕ) (initProvided : Bool) (i : ℕ) (st : FitState α) : FitState α :=
  let s := iStart bs i
  let e := iEnd T bs i
  let out := batchOutput upd bs initProvided i st
  let b := out.1
  let last := e - 1 - s
  { poses := fun j => if j < s then st.poses j else if j < e then b.poses (j - s) else b.poses last
    trans := fun j => if j < s then st.trans j else if j < e then b.trans (j - s) else b.trans last
    betas := fun j => if j < e then st.betas j else b.betas last
    cfg := out.2 }

/-- The fitter state after the first `k` iterations of the batch loop of
`run_fit` (the loop `for i in pbar` at aligner.py line 145, with the batch
size already clamped). -/
def stateAfter {α : Type} (upd : Cfg → FreeParam → BatchParams α → ℕ → α)
    (T bs : ℕ) (initProvided : Bool) (st0 : FitState α) (k : ℕ) : FitState α :=
  (List.range k).foldl (fun st i => runBatch upd T bs initProvided i st) st0

lemma stateAfter_succ {α : Type} (upd : Cfg → FreeParam → BatchParams α → ℕ → α)
    (T bs : ℕ) (initProvided : Bool) (st0 : FitState α) (k : ℕ) :
    stateAfter upd T bs initProvided st0 (k + 1) =
      runBatch upd T bs initProvided k (stateAfter upd T bs initProvided st0 k) := by
  unfold stateAfter
  rw [List.range_succ, List.foldl_append, List.foldl_cons, List.foldl_nil]

/-! ## The loss composer (`SkelFitter.fitting_loss`, aligner.py lines 309-360)

Tensors become total functions from indices; the dimensions of each batch
are carried in `FitIn`.  The SKEL forward model (an opaque differentiable
oracle per the design), the two vertex masks (external data files:
`riggid_parts_mask.pkl` and the SMPL skinning weights), and the three
anatomical loss helpers imported from `skel.alignment.losses` (a module
whose code lives outside the embedded files) are parameters in
`FitterEnv`. -/

/-- The result of `self.skel.forward(...)`: per-frame skinned surface
vertices (`skin_verts`, frame × vertex × coordinate) and joints
(frame × joint × coordinate). -/
structure SkelOutput where
  skin_verts : ℕ → ℕ → ℕ → ℚ
  joints : ℕ → ℕ → ℕ → ℚ

/-- The fitter's fixed collaborators: vertex/joint counts, the forward
model (arguments: poses, betas, trans, dJ), the two per-vertex masks
(`self.fitting_mask`, `self.torso_verts_mask`, both broadcast `1×V×1`
tensors, so one weight per vertex), and the anatomical loss helpers
`compute_scapula_loss`, `compute_spine_loss`, `compute_pose_loss`. -/
structure FitterEnv where
  nV : ℕ
  nJ : ℕ
  fwd : (ℕ → ℕ → ℚ) → (ℕ → ℕ → ℚ) → (ℕ → ℕ → ℚ) → (ℕ → ℕ → ℕ → ℚ) → SkelOutput
  fittingMask : ℕ → ℚ
  torsoMask : ℕ → ℚ
  scapulaLoss : (ℕ → ℕ → ℚ) → ℚ
  spineLoss : (ℕ → ℕ → ℚ) → ℚ
  poseLoss : (ℕ → ℕ → ℚ) → ℚ

/-- One batch's inputs to `fitting_loss`: `nF` frames, `nQ` pose channels,
the batch tensors `poses`/`betas`/`trans` (frame × channel), the regressed
anatomical joints and the target SMPL vertices. -/
structure FitIn where
  nF : ℕ
  nQ : ℕ
  poses : ℕ → ℕ → ℚ
  betas : ℕ → ℕ → ℚ
  trans : ℕ → ℕ → ℚ
  anat_joints : ℕ → ℕ → ℕ → ℚ
  verts : ℕ → ℕ → ℕ → ℚ

/-- Sum of `f` over a `a × b × c` index box (`tensor.sum()`). -/
def sum3 (a b c : ℕ) (f : ℕ → ℕ → ℕ → ℚ) : ℚ :=
  ∑ i ∈ Finset.range a, ∑ j ∈ Finset.range b, ∑ k ∈ Finset.range c, f i j k

/-- Sum of `f` over a `a × b` index box. -/
def sum2 (a b : ℕ) (f : ℕ → ℕ → ℚ) : ℚ :=
  ∑ i ∈ Finset.range a, ∑ j ∈ Finset.range b, f i j

/-- `torch.nn.functional.mse_loss` on `a × b × c` tensors: mean over all
entries of the squared difference. -/
def mse3 (a b c : ℕ) (f g : ℕ → ℕ → ℕ → ℚ) : ℚ :=
  sum3 a b c (fun i j k => (f i j k - g i j k) ^ 2) / (a * b * c)

/-- `torch.nn.functional.mse_loss` on `a × b` tensors. -/
def mse2 (a b : ℕ) (f g : ℕ → ℕ → ℚ) : ℚ :=
  sum2 a b (fun i j => (f i j - g i j) ^ 2) / (a * b)

/-- `joint_mask = torch.zeros_like(poses); joint_mask[:,:3] = 1`
(aligner.py lines 322-323). -/
def jointMask : ℕ → ℕ → ℚ := fun _ c => if c < 3 then 1 else 0

/-- `poses_in = poses * joint_mask` (aligner.py line 324): the pose with
every channel beyond the first 3 zeroed. -/
def rotOnlyPoses (poses : ℕ → ℕ → ℚ) : ℕ → ℕ → ℚ :=
  fun t c => poses t c * jointMask t c

/-- The `dJ` argument of the forward calls: `torch.zeros((B, 24, 3))`
(aligner.py line 227). -/
def dJzero : ℕ → ℕ → ℕ → ℚ := fun _ _ _ => 0

/-- The `loss_dict` built by `fitting_loss`; `time_loss` is only inserted
when the batch has more than one frame (aligner.py lines 344-346). -/
structure LossDict where
  verts_loss : ℚ
  verts_loss_loose : ℚ
  joint_loss : ℚ
  time_loss : Option ℚ
  scapula_loss : ℚ
  spine_loss : ℚ
  pose_loss : ℚ

/-- `SkelFitter.fitting_loss` (aligner.py lines 309-360), term by term:
the rot-only pose masking and vertex-mask selection (lines 320-330), the
masked vertex loss (line 337), the loose vertex loss (line 339), the joint
loss (line 342), the conditional time-consistency loss (lines 344-346),
the three pose regularizers (lines 349-351; note line 351 passes the raw
`poses`, not `poses_in`), and the final `pose_reg_factor` scaling loop
(lines 353-355). -/
def fitting_loss (env : FitterEnv) (inp : FitIn) (cfg : Cfg) : LossDict :=
  let posesIn := if cfg.rot_only then rotOnlyPoses inp.poses else inp.poses
  let vertsMask : ℕ → ℚ := if cfg.rot_only then env.torsoMask else fun _ => 1
  let out := env.fwd posesIn inp.betas inp.trans dJzero
  let pre : LossDict :=
    { verts_loss := cfg.l_verts *
        sum3 inp.nF env.nV 3
          (fun t v k => vertsMask v * env.fittingMask v *
            (out.skin_verts t v k - inp.verts t v k) ^ 2) /
        (∑ v ∈ Finset.range env.nV, env.fittingMask v * vertsMask v)
      verts_loss_loose := cfg.l_verts_loose * mse3 inp.nF env.nV 3 out.skin_verts inp.verts
      joint_loss := cfg.l_joint * mse3 inp.nF env.nJ 3 out.joints inp.anat_joints
      time_loss :=
        if 1 < inp.nF then
          some (cfg.l_time_loss *
            mse2 (inp.nF - 1) inp.nQ (fun t c => inp.poses (t + 1) c) (fun t c => inp.poses t c))
        else none
      scapula_loss := cfg.l_scapula_loss * env.scapulaLoss posesIn
      spine_loss := cfg.l_spine_loss * env.spineLoss posesIn
      pose_loss := cfg.l_pose_loss * env.poseLoss inp.poses }
  { pre with
    scapula_loss := cfg.pose_reg_factor * pre.scapula_loss
    spine_loss := cfg.pose_reg_factor * pre.spine_loss
    pose_loss := cfg.pose_reg_factor * pre.pose_loss }

/-- `loss = sum(loss_dict.values())` (aligner.py line 357): an absent
`time_loss` entry simply contributes nothing. -/
def totalLoss (d : LossDict) : ℚ :=
  d.verts_loss + d.verts_loss_loose + d.joint_loss + d.time_loss.getD 0 +
    d.scapula_loss + d.spine_loss + d.pose_loss

/-! ## Stage A as an optimization problem (for the rotation-only guarantee)

Stage A (aligner.py line 176) hands the LBFGS optimizer the tensors
`[trans, poses]` and the closure objective
`fitting_loss(poses, betas, trans, dJ, anat_joints, verts, self.cfg)` with
the warm-start configuration.  We expose that objective as a function of
the free variables and model the optimizer as an arbitrary deterministic
procedure `Opt : objective → start → result` that is equivariant under a
sign flip of one coordinate of the start point.  (LBFGS with an identity
initial Hessian scaling builds every step from gradients, gradient
differences and inner products, so flipping the sign of one input
coordinate flips the same coordinate of every iterate whenever the
objective is invariant under that flip; the equivariance hypothesis is the
abstraction of exactly that.) -/

/-- The free variables of a stage-A optimization: the batch's pose and
translation tensors (the `params` list is `[trans, poses]`; betas stay
fixed). -/
structure OptVars where
  poses : ℕ → ℕ → ℚ
  trans : ℕ → ℕ → ℚ

/-- The stage-A closure objective: total `fitting_loss` of the batch under
the warm-start configuration, as a function of the free variables. -/
def stageALoss (env : FitterEnv) (inp : FitIn) : OptVars → ℚ :=
  fun x => totalLoss (fitting_loss env { inp with poses := x.poses, trans := x.trans } cfgWarm)

/-- Flip the sign of pose channel `c` in every frame; translation and the
other channels are untouched. -/
def negChannel (c : ℕ) (x : OptVars) : OptVars :=
  { poses := fun t q => if q = c then -x.poses t q else x.poses t q
    trans := x.trans }

lemma rotOnlyPoses_negChannel (c : ℕ) (hc : 3 ≤ c) (x : OptVars) :
    rotOnlyPoses (negChannel c x).poses = rotOnlyPoses x.poses := by
  funext t q
  simp only [rotOnlyPoses, negChannel, jointMask]
  by_cases hq : q = c
  · subst hq
    have : ¬ q < 3 := by omega
    simp [this]
  · simp [hq]

/-- The stage-A objective is invariant under flipping the sign of any pose
channel beyond the first 3, uniformly over the frames: the forward model
and the scapula/spine regularizers only see the rot-masked pose, the
warm-start configuration sets `l_pose_loss = 0`, and the time-consistency
term is a sum of squared frame-to-frame differences, which a uniform sign
flip of one channel leaves unchanged. -/
lemma stageALoss_negChannel (env : FitterEnv) (inp : FitIn) (c : ℕ) (hc : 3 ≤ c)
    (x : OptVars) : stageALoss env inp (negChannel c x) = stageALoss env inp x := by
  unfold stageALoss fitting_loss totalLoss
  have hmask := rotOnlyPoses_negChannel c hc x
  have hmse : mse2 (inp.nF - 1) inp.nQ
      (fun t q => if q = c then -x.poses (t + 1) q else x.poses (t + 1) q)
      (fun t q => if q = c then -x.poses t q else x.poses t q) =
      mse2 (inp.nF - 1) inp.nQ (fun t q => x.poses (t + 1) q) (fun t q => x.poses t q) := by
    unfold mse2 sum2
    congr 1
    refine Finset.sum_congr rfl fun t _ => Finset.sum_congr rfl fun q _ => ?_
    by_cases hq : q = c
    · simp [hq]; ring
    · simp [hq]
  simp only [negChannel] at hmask
  simp only [cfgWarm, reduceIte, negChannel]
  rw [hmask, hmse]
  ring

end SkelFit

namespace MotLoader

/-! ## `mot_loader.py`

A text file on disk is `missing` (the path does not exist), `unreadable`
(opening or reading raises an `OSError`), or a list of lines.  Python
exceptions that escape a function are modelled by `PyResult.exn` carrying
the exception class name. -/

inductive PyFile
  | missing
  | unreadable
  | lines (ls : List String)

inductive PyResult (α : Type)
  | ok (a : α)
  | exn (e : String)
deriving DecidableEq

/-- Python's `str.split()` on space-separated text: split on spaces and
drop empty fragments. -/
def pysplit (s : String) : List String :=
  (s.splitOn " ").filter (fun w => w ≠ "")

/-- Whether `pat` is a leading prefix of the character list. -/
def startsWithChars : List Char → List Char → Bool
  | [], _ => true
  | _ :: _, [] => false
  | c :: cs, d :: ds => c == d && startsWithChars cs ds

/-- Whether `pat` occurs as a contiguous substring of the character
list. -/
def containsChars (pat : List Char) : List Char → Bool
  | [] => pat.isEmpty
  | d :: rest => startsWithChars pat (d :: rest) || containsChars pat rest

/-- `line.count('endheader') != 0` (mot_loader.py line 49): the line
contains the substring `endheader`. -/
def containsEndheader (line : String) : Bool :=
  containsChars "endheader".toList line.toList

/-- `read_header` (mot_loader.py lines 5-17): a missing path returns `[]`
immediately; any exception while reading — an `OSError` from `open`, or the
`IndexError` of `lines[10]` when the file has at most 10 lines — is caught,
a diagnostic is printed, and `[]` is returned; otherwise the 11th line is
split into header names. -/
def read_header (motFile : PyFile) : List String :=
  match motFile with
  | PyFile.missing => []
  | PyFile.unreadable => []
  | PyFile.lines ls =>
    match ls.get? 10 with
    | some l => pysplit l
    | none => []

/-- The `endheader` scan of `storage_to_numpy` (mot_loader.py lines
44-51), starting at line index `i`: returns
`line_number_of_line_containing_endheader` together with `column_names`
(the split of the line after the first line containing `endheader`; `none`
when the loop ran out before assigning it).  Returns `none` when no line
contains `endheader`, leaving both Python variables unassigned. -/
def scanEndheader : List String → ℕ → Option (ℕ × Option (List String))
  | [], _ => none
  | l :: rest, i =>
    if containsEndheader l then
      some (i + 1, match rest with
        | [] => none
        | l2 :: _ => some (pysplit l2))
    else scanEndheader rest (i + 1)

/-- `storage_to_numpy` (mot_loader.py lines 19-66).  The numeric body of
the file is handed to `np.genfromtxt`, abstracted as `gen` applied to the
`names` argument (`none` stands for `names=True`) and the `skip_header`
count; the subsequent row-by-row repacking of `data` into a plain array is
absorbed into the abstraction.  `open` on a missing path raises
`FileNotFoundError` (line 42 has no guard); when no line contains
`endheader`, `line_number_of_line_containing_endheader` (lines 56, 59) and
`column_names` (line 58) are unassigned local variables, so using them
raises `NameError`. -/
def storage_to_numpy {α : Type} (gen : Option (List String) → ℕ → α)
    (storageFile : PyFile) (excess_header_entries : ℕ) : PyResult α :=
  match storageFile with
  | PyFile.missing => PyResult.exn "FileNotFoundError"
  | PyFile.unreadable => PyResult.exn "OSError"
  | PyFile.lines ls =>
    match scanEndheader ls 0 with
    | none => PyResult.exn "NameError"
    | some (lineNo, colNames) =>
      if excess_header_entries = 0 then
        PyResult.ok (gen none lineNo)
      else
        match colNames with
        | none => PyResult.exn "NameError"
        | some ns =>
          PyResult.ok (gen (some (ns.take (ns.length - excess_header_entries))) (lineNo + 1))

end MotLoader

namespace Nimble2Skel

/-! ## `nimble2skel.py` (`mot2skel`, lines 19-39)

Motion data is a frame × column table of scalars (`mot_data` after
`astype(np.float32)`; float rounding is not modelled).  The scalar type is
a parameter `K` with the constant `piK` standing for `np.pi`, so that the
definitions stay executable; the claims instantiate `K := ℝ` and
`piK := Real.pi`.  The constant `pose_param_names` is imported from
`skel.kin_skel`, a module outside the embedded files, so it is a parameter
`names` here. -/

/-- `header2ind = {k: i for i, k in enumerate(osim_headers)}` followed by
`header2ind[k]` (nimble2skel.py lines 22, 31-35): a dict comprehension
keeps the **last** index of a duplicated name; a missing key raises
`KeyError`, modelled as `none`. -/
def header2ind (headers : List String) (k : String) : Option ℕ :=
  ((headers.enum.filter (fun p => p.2 = k)).map (fun p => p.1)).getLast?

/-- The pose table before unit conversion (nimble2skel.py lines 27-33):
`pose_params = np.zeros((T, D))`, then column `d` is copied from the
motion column named `names[d]` whenever that name appears in the headers;
columns whose name is absent stay zero. -/
def motPoseRaw {K : Type} [Field K] (names headers : List String)
    (mot : ℕ → ℕ → K) : ℕ → ℕ → K :=
  fun t d =>
    match names.get? d with
    | some nm =>
      match header2ind headers nm with
      | some i => mot t i
      | none => 0
    | none => 0

/-- `mot2skel` (nimble2skel.py lines 19-39): extract the translation from
the `pelvis_tx`/`pelvis_ty`/`pelvis_tz` columns as-is (line 35), then
convert the pose table from degrees to radians,
`pose_params = np.pi * pose_params / 180` (line 37).  A missing pelvis
column would raise `KeyError` (modelled as `none`). -/
def mot2skel {K : Type} [Field K] (piK : K) (names headers : List String)
    (mot : ℕ → ℕ → K) :
    Option ((ℕ → ℕ → K) × (ℕ → ℕ → K)) :=
  match header2ind headers "pelvis_tx", header2ind headers "pelvis_ty",
      header2ind headers "pelvis_tz" with
  | some ix, some iy, some iz =>
    some (fun t d => piK * motPoseRaw names headers mot t d / 180,
          fun t k => mot t (if k = 0 then ix else if k = 1 then iy else iz))
  | _, _, _ => none

end Nimble2Skel

namespace SkelFit

/-! ## Claims about the sequence fitter -/

/-- C2: for every sequence length `T ≥ 1` and requested batch size
`≥ 1`, `run_fit` partitions the `T` frames into `ceil(T/batch_size)`
contiguous batches `[i*batch_size, min((i+1)*batch_size, T))` (after
clamping the batch size to `T`), processed in increasing index order, and
the concatenation of these ranges is exactly `[0, T)`: no overlap, no
gap. -/
theorem claim_C2_batch_partition (T bs0 : ℕ) (hT : 1 ≤ T) (hbs : 1 ≤ bs0) :
    allBatchFrames T bs0 = List.range T := by
  unfold allBatchFrames
  have hbs' : 1 ≤ clampBatchSize T bs0 := by
    unfold clampBatchSize
    split <;> omega
  rw [range_bind_batchFrames]
  rw [min_eq_right (nBatch_mul_ge T (clampBatchSize T bs0) hbs')]
  exact (List.range_eq_range' T).symm

/-- Witness for C2 at `T = 5`, `batch_size = 2`. -/
theorem claim_C2_batch_partition_witness :
    1 ≤ 5 ∧ 1 ≤ 2 ∧ allBatchFrames 5 2 = List.range 5 :=
  ⟨by decide, by decide, claim_C2_batch_partition 5 2 (by decide) (by decide)⟩

/-- C1 counterexample: the claim says that in stage B of the first batch
all of pose, betas and translation receive gradient updates, so the fitted
betas may differ from their initialization.  But the `params` list handed
to the optimizer is `[trans, poses]` at every call site: even under an
LBFGS update that writes the value 1 into every entry of every tensor it
is given, the betas coming out of the two-stage first-batch optimization
are bit-for-bit the zeros they were initialized to, while pose and
translation did move. -/
theorem claim_C1_counterexample :
    FreeParam.betas ∉ fitParams ∧
    (firstBatchOptim (fun _ _ _ _ => (1 : ℚ)) cfgWarm
      ⟨fun _ => 0, fun _ => 0, fun _ => 0⟩).betas 0 = 0 ∧
    (firstBatchOptim (fun _ _ _ _ => (1 : ℚ)) cfgWarm
      ⟨fun _ => 0, fun _ => 0, fun _ => 0⟩).poses 0 = 1 ∧
    (firstBatchOptim (fun _ _ _ _ => (1 : ℚ)) cfgWarm
      ⟨fun _ => 0, fun _ => 0, fun _ => 0⟩).trans 0 = 1 := by
  refine ⟨by decide, by decide, by decide, by decide⟩

/-- C1 (amended): in the two-stage fitting of the first batch, stage B
applies the refinement configuration (`cfg.update(self.cfg_optim)`) with
the free-parameter list `[trans, poses]`: pose and translation receive the
optimizer's update, while the shape coefficients are not handed to the
optimizer at all — whatever the LBFGS update does, the betas coming out of
both stages equal their initialized values. -/
theorem claim_C1_amended {α : Type} (upd : Cfg → FreeParam → BatchParams α → ℕ → α)
    (cfg : Cfg) (b : BatchParams α) :
    (firstBatchOptim upd cfg b).betas = b.betas ∧
    (firstBatchOptim upd cfg b).poses =
      upd (cfgUpdateOptim cfg) FreeParam.pose (optim upd cfg fitParams b) ∧
    (firstBatchOptim upd cfg b).trans =
      upd (cfgUpdateOptim cfg) FreeParam.trans (optim upd cfg fitParams b) := by
  refine ⟨?_, ?_, ?_⟩ <;> simp [firstBatchOptim, optim, fitParams]

/-- C3: at every batch boundary, the initial pose, translation and betas
of every frame of batch `i+1` equal the fitted final values of batch `i`'s
last frame, before batch `i+1`'s own optimization starts: after loop
iteration `i` (state `stateAfter ... (i+1)`), every frame `j` of batch
`i+1` holds the last row of batch `i`'s optimized output tensors
(aligner.py lines 185-191 write the batch result back and forward-fill all
later frames with `poses[-1:]`, `trans[-1]`, `betas[-1:]`).  This holds
for an arbitrary LBFGS update `upd`. -/
theorem claim_C3_seeding_continuity {α : Type}
    (upd : Cfg → FreeParam → BatchParams α → ℕ → α)
    (T bs0 : ℕ) (initProvided : Bool) (st0 : FitState α) (i j : ℕ)
    (_hbatch : i + 1 < nBatch T (clampBatchSize T bs0))
    (hj : iStart (clampBatchSize T bs0) (i + 1) ≤ j) :
    (stateAfter upd T (clampBatchSize T bs0) initProvided st0 (i + 1)).poses j =
      (batchOutput upd (clampBatchSize T bs0) initProvided i
        (stateAfter upd T (clampBatchSize T bs0) initProvided st0 i)).1.poses
        (iEnd T (clampBatchSize T bs0) i - 1 - iStart (clampBatchSize T bs0) i) ∧
    (stateAfter upd T (clampBatchSize T bs0) initProvided st0 (i + 1)).trans j =
      (batchOutput upd (clampBatchSize T bs0) initProvided i
        (stateAfter upd T (clampBatchSize T bs0) initProvided st0 i)).1.trans
        (iEnd T (clampBatchSize T bs0) i - 1 - iStart (clampBatchSize T bs0) i) ∧
    (stateAfter upd T (clampBatchSize T bs0) initProvided st0 (i + 1)).betas j =
      (batchOutput upd (clampBatchSize T bs0) initProvided i
        (stateAfter upd T (clampBatchSize T bs0) initProvided st0 i)).1.betas
        (iEnd T (clampBatchSize T bs0) i - 1 - iStart (clampBatchSize T bs0) i) := by
  set bs := clampBatchSize T bs0 with hbsdef
  have hse : iEnd T bs i ≤ j := by
    have h1 : iEnd T bs i ≤ (i + 1) * bs := min_le_left _ _
    have h2 : iStart bs (i + 1) = (i + 1) * bs := rfl
    omega
  have hs : ¬ j < iStart bs i := by
    have : iStart bs i ≤ (i + 1) * bs := by
      unfold iStart
      exact Nat.mul_le_mul_right bs (Nat.le_succ i)
    have h2 : iStart bs (i + 1) = (i + 1) * bs := rfl
    unfold iStart at *
    omega
  have he : ¬ j < iEnd T bs i := by omega
  rw [stateAfter_succ]
  unfold runBatch
  simp only [hs, he, if_false]
  exact ⟨trivial, trivial, trivial⟩

/-- Witness for C3: two frames, batch size 1, no prior initialization, an
LBFGS update writing 7 everywhere; frame 1 (the single frame of batch 1)
is seeded with batch 0's fitted last frame. -/
theorem claim_C3_seeding_continuity_witness :
    (0 : ℕ) + 1 < nBatch 2 (clampBatchSize 2 1) ∧
    iStart (clampBatchSize 2 1) (0 + 1) ≤ 1 ∧
    ((stateAfter (fun _ _ _ _ => (7 : ℚ)) 2 (clampBatchSize 2 1) false
        ⟨fun _ => 0, fun _ => 0, fun _ => 0, cfgWarm⟩ (0 + 1)).poses 1 =
      (batchOutput (fun _ _ _ _ => (7 : ℚ)) (clampBatchSize 2 1) false 0
        (stateAfter (fun _ _ _ _ => (7 : ℚ)) 2 (clampBatchSize 2 1) false
          ⟨fun _ => 0, fun _ => 0, fun _ => 0, cfgWarm⟩ 0)).1.poses
        (iEnd 2 (clampBatchSize 2 1) 0 - 1 - iStart (clampBatchSize 2 1) 0) ∧
    (stateAfter (fun _ _ _ _ => (7 : ℚ)) 2 (clampBatchSize 2 1) false
        ⟨fun _ => 0, fun _ => 0, fun _ => 0, cfgWarm⟩ (0 + 1)).trans 1 =
      (batchOutput (fun _ _ _ _ => (7 : ℚ)) (clampBatchSize 2 1) false 0
        (stateAfter (fun _ _ _ _ => (7 : ℚ)) 2 (clampBatchSize 2 1) false
          ⟨fun _ => 0, fun _ => 0, fun _ => 0, cfgWarm⟩ 0)).1.trans
        (iEnd 2 (clampBatchSize 2 1) 0 - 1 - iStart (clampBatchSize 2 1) 0) ∧
    (stateAfter (fun _ _ _ _ => (7 : ℚ)) 2 (clampBatchSize 2 1) false
        ⟨fun _ => 0, fun _ => 0, fun _ => 0, cfgWarm⟩ (0 + 1)).betas 1 =
      (batchOutput (fun _ _ _ _ => (7 : ℚ)) (clampBatchSize 2 1) false 0
        (stateAfter (fun _ _ _ _ => (7 : ℚ)) 2 (clampBatchSize 2 1) false
          ⟨fun _ => 0, fun _ => 0, fun _ => 0, cfgWarm⟩ 0)).1.betas
        (iEnd 2 (clampBatchSize 2 1) 0 - 1 - iStart (clampBatchSize 2 1) 0)) :=
  ⟨by decide, by decide,
    claim_C3_seeding_continuity (fun _ _ _ _ => (7 : ℚ)) 2 1 false
      ⟨fun _ => 0, fun _ => 0, fun _ => 0, cfgWarm⟩ 0 1 (by decide) (by decide)⟩

end SkelFit

namespace SkelFit

/-- C4: when `cfg.rot_only` is active (stage A of the first batch, whose
closure objective is `stageALoss`: the warm-start configuration, in which
`l_pose_loss = 0`), every pose channel with index `≥ 3`, in every frame of
the batch, comes out of the optimization equal to its initialized value
(which stage A initializes to 0 for those channels).  The optimizer is an
arbitrary deterministic procedure `Opt` mapping an objective and a start
point to a result, assumed equivariant under the sign flip `negChannel c`
of the start point — the property LBFGS has, because with an identity
initial Hessian scaling every step is built from gradients, gradient
differences and inner products.  The substance is
`stageALoss_negChannel`: the stage-A objective is invariant under that
flip, because the loss composer zeroes all but the first 3 pose channels
before they reach the forward model and the regularizers, the warm-start
weights kill the one term that sees the raw pose, and the
time-consistency term only sees frame-to-frame differences. -/
theorem claim_C4_rot_only_guarantee (env : FitterEnv) (inp : FitIn) (c : ℕ) (hc : 3 ≤ c)
    (Opt : (OptVars → ℚ) → OptVars → OptVars)
    (hEq : ∀ (L : OptVars → ℚ) (x : OptVars),
      Opt (fun y => L (negChannel c y)) (negChannel c x) = negChannel c (Opt L x))
    (x0 : OptVars) (h0 : ∀ t, x0.poses t c = 0) (t : ℕ) :
    (Opt (stageALoss env inp) x0).poses t c = x0.poses t c := by
  have hfix : negChannel c x0 = x0 := by
    cases x0 with
    | mk p tr =>
      simp only [negChannel, OptVars.mk.injEq]
      refine ⟨?_, trivial⟩
      funext t' q
      by_cases hq : q = c
      · subst hq
        have hz : p t' q = 0 := h0 t'
        simp [hz]
      · simp [hq]
  have hinv : (fun y => stageALoss env inp (negChannel c y)) = stageALoss env inp := by
    funext y
    exact stageALoss_negChannel env inp c hc y
  have h1 : Opt (stageALoss env inp) x0 = negChannel c (Opt (stageALoss env inp) x0) := by
    conv_lhs => rw [← hinv, ← hfix]
    rw [hEq]
  have h2 : (Opt (stageALoss env inp) x0).poses t c
      = -(Opt (stageALoss env inp) x0).poses t c := by
    conv_lhs => rw [h1]
    simp [negChannel]
  have h3 : (Opt (stageALoss env inp) x0).poses t c = 0 := by linarith
  rw [h3, h0 t]

/-- Witness for C4: channel 3, the identity optimizer (trivially
equivariant), an all-zero start, and a tiny concrete environment. -/
theorem claim_C4_rot_only_guarantee_witness :
    3 ≤ 3 ∧
    (∀ t : ℕ, (⟨fun _ _ => 0, fun _ _ => 0⟩ : OptVars).poses t 3 = 0) ∧
    ((fun (_ : OptVars → ℚ) (x : OptVars) => x)
        (stageALoss
          ⟨1, 1, fun _ _ _ _ => ⟨fun _ _ _ => 0, fun _ _ _ => 0⟩,
            fun _ => 1, fun _ => 1, fun _ => 0, fun _ => 0, fun _ => 0⟩
          ⟨1, 4, fun _ _ => 0, fun _ _ => 0, fun _ _ => 0, fun _ _ _ => 0, fun _ _ _ => 0⟩)
        (⟨fun _ _ => 0, fun _ _ => 0⟩ : OptVars)).poses 0 3
      = (⟨fun _ _ => 0, fun _ _ => 0⟩ : OptVars).poses 0 3 :=
  ⟨by decide, fun _ => rfl,
    claim_C4_rot_only_guarantee
      ⟨1, 1, fun _ _ _ _ => ⟨fun _ _ _ => 0, fun _ _ _ => 0⟩,
        fun _ => 1, fun _ => 1, fun _ => 0, fun _ => 0, fun _ => 0⟩
      ⟨1, 4, fun _ _ => 0, fun _ _ => 0, fun _ _ => 0, fun _ _ _ => 0, fun _ _ _ => 0⟩
      3 (by decide)
      (fun _ x => x) (fun _ _ => rfl)
      ⟨fun _ _ => 0, fun _ _ => 0⟩ (fun _ => rfl) 0⟩

/-- C5: with no prior initialization, `run_fit` seeds the target
parameters deterministically: the pose array is zero except its first 3
channels, copied from the source pose's first 3 channels; the betas of
every frame are the source shape coefficients truncated to 10; the
translation is copied from the source directly.  Two calls on identical
inputs produce identical initial arrays (the seeding is a pure function of
the inputs). -/
theorem claim_C5_initialization (posesIn : ℕ → ℕ → ℚ) (betasIn : ℕ → ℚ)
    (transIn : ℕ → ℕ → ℚ) (t c3 cHi j k : ℕ)
    (hc3 : c3 < 3) (hcHi : 3 ≤ cHi) (hj : j < 10) :
    initPosesSkel posesIn t c3 = posesIn t c3 ∧
    initPosesSkel posesIn t cHi = 0 ∧
    initBetasSkel betasIn t j = betasIn j ∧
    initTransSkel transIn t k = transIn t k ∧
    (∀ p' b' tr', p' = posesIn → b' = betasIn → tr' = transIn →
      (initPosesSkel p', initBetasSkel b', initTransSkel tr')
        = (initPosesSkel posesIn, initBetasSkel betasIn, initTransSkel transIn)) := by
  refine ⟨?_, ?_, ?_, rfl, ?_⟩
  · simp [initPosesSkel, hc3]
  · have : ¬ cHi < 3 := by omega
    simp [initPosesSkel, this]
  · simp [initBetasSkel, hj]
  · intro p' b' tr' hp hb htr
    rw [hp, hb, htr]

/-- Witness for C5 at concrete source arrays, channel indices 1 and 5,
shape coefficient 2. -/
theorem claim_C5_initialization_witness :
    (1 : ℕ) < 3 ∧ 3 ≤ (5 : ℕ) ∧ (2 : ℕ) < 10 ∧
    (initPosesSkel (fun t c : ℕ => ((t * 100 + c : ℕ) : ℚ)) 4 1 = ((4 * 100 + 1 : ℕ) : ℚ) ∧
    initPosesSkel (fun t c : ℕ => ((t * 100 + c : ℕ) : ℚ)) 4 5 = 0 ∧
    initBetasSkel (fun j : ℕ => ((j + 7 : ℕ) : ℚ)) 4 2 = ((2 + 7 : ℕ) : ℚ) ∧
    initTransSkel (fun t k : ℕ => ((t + k : ℕ) : ℚ)) 4 0 = ((4 + 0 : ℕ) : ℚ) ∧
    (∀ p' b' tr', p' = (fun t c : ℕ => ((t * 100 + c : ℕ) : ℚ)) →
      b' = (fun j : ℕ => ((j + 7 : ℕ) : ℚ)) →
      tr' = (fun t k : ℕ => ((t + k : ℕ) : ℚ)) →
      (initPosesSkel p', initBetasSkel b', initTransSkel tr')
        = (initPosesSkel (fun t c : ℕ => ((t * 100 + c : ℕ) : ℚ)),
            initBetasSkel (fun j : ℕ => ((j + 7 : ℕ) : ℚ)),
            initTransSkel (fun t k : ℕ => ((t + k : ℕ) : ℚ))))) :=
  ⟨by decide, by decide, by decide,
    claim_C5_initialization (fun t c : ℕ => ((t * 100 + c : ℕ) : ℚ))
      (fun j : ℕ => ((j + 7 : ℕ) : ℚ))
      (fun t k : ℕ => ((t + k : ℕ) : ℚ)) 4 1 5 2 0 (by decide) (by decide) (by decide)⟩

end SkelFit


namespace SkelFit

/-- The masked vertex loss as claim C6 states it: the weighted squared
error restricted to the torso-only mask in rotation-only mode (else the
rigid-parts mask), normalized by that mask's total weight. -/
def vertsLossClaimed (env : FitterEnv) (inp : FitIn) (cfg : Cfg) : ℚ :=
  let mask : ℕ → ℚ := if cfg.rot_only then env.torsoMask else env.fittingMask
  let posesIn := if cfg.rot_only then rotOnlyPoses inp.poses else inp.poses
  let out := env.fwd posesIn inp.betas inp.trans dJzero
  cfg.l_verts *
    sum3 inp.nF env.nV 3 (fun t v k => mask v * (out.skin_verts t v k - inp.verts t v k) ^ 2) /
    (∑ v ∈ Finset.range env.nV, mask v)

/-- The effective vertex mask actually applied by aligner.py line 337:
the pointwise product `verts_mask * self.fitting_mask`, which in
rotation-only mode is the torso mask **and** the rigid-parts mask, and
otherwise (since `verts_mask` is all ones) the rigid-parts mask alone. -/
def effVertsMask (env : FitterEnv) (cfg : Cfg) : ℕ → ℚ :=
  if cfg.rot_only then fun v => env.torsoMask v * env.fittingMask v else env.fittingMask

/-- A two-vertex environment in which the torso mask covers vertices 0
and 1 but the rigid-parts mask covers only vertex 0, with a constant-zero
forward model (used to separate the claimed from the implemented vertex
loss). -/
def envC6 : FitterEnv :=
  ⟨2, 1, fun _ _ _ _ => ⟨fun _ _ _ => 0, fun _ _ _ => 0⟩,
    fun v => if v = 0 then 1 else 0, fun _ => 1,
    fun _ => 0, fun _ => 0, fun _ => 0⟩

/-- A one-frame batch whose target vertex `v` sits at coordinate `v + 1`
(so vertex 1 contributes a larger squared error than vertex 0). -/
def inpC6 : FitIn :=
  ⟨1, 1, fun _ _ => 0, fun _ _ => 0, fun _ _ => 0, fun _ _ _ => 0,
    fun _ v _ => ((v + 1 : ℕ) : ℚ)⟩

/-- C6 counterexample: in rotation-only mode the code restricts the
vertex loss to the product of the torso mask and the rigid-parts mask
(aligner.py line 337 multiplies `verts_mask * self.fitting_mask`), not to
the torso mask alone: on `envC6`/`inpC6` the claimed torso-only value is
3/4 while the code computes 3/10. -/
theorem claim_C6_counterexample :
    vertsLossClaimed envC6 inpC6 cfgWarm ≠ (fitting_loss envC6 inpC6 cfgWarm).verts_loss := by
  have h1 : vertsLossClaimed envC6 inpC6 cfgWarm = 3/4 := by
    norm_num [vertsLossClaimed, envC6, inpC6, cfgWarm, sum3, Finset.sum_range_succ]
  have h2 : (fitting_loss envC6 inpC6 cfgWarm).verts_loss = 3/10 := by
    norm_num [fitting_loss, envC6, inpC6, cfgWarm, sum3, Finset.sum_range_succ]
  rw [h1, h2]
  norm_num

/-- C6 (amended): the masked vertex loss term equals the weighted squared
error between the model's skinned vertices and the target vertices
restricted to the pointwise product of the torso mask and the rigid-parts
mask when rotation-only mode is active — and to the rigid-parts mask
otherwise — divided by that effective mask's total weight. -/
theorem claim_C6_amended (env : FitterEnv) (inp : FitIn) (cfg : Cfg) :
    (fitting_loss env inp cfg).verts_loss =
      cfg.l_verts *
        sum3 inp.nF env.nV 3
          (fun t v k => effVertsMask env cfg v *
            ((env.fwd (if cfg.rot_only then rotOnlyPoses inp.poses else inp.poses)
              inp.betas inp.trans dJzero).skin_verts t v k - inp.verts t v k) ^ 2) /
        (∑ v ∈ Finset.range env.nV, effVertsMask env cfg v) := by
  by_cases h : cfg.rot_only
  · simp only [fitting_loss, effVertsMask, h, if_true]
    have hden : (∑ v ∈ Finset.range env.nV, env.fittingMask v * env.torsoMask v)
        = ∑ v ∈ Finset.range env.nV, env.torsoMask v * env.fittingMask v :=
      Finset.sum_congr rfl fun v _ => mul_comm _ _
    rw [hden]
  · simp only [fitting_loss, effVertsMask, h, if_false, Bool.false_eq_true]
    have hnum : ∀ out : SkelOutput,
        sum3 inp.nF env.nV 3
          (fun t v k => (fun _ : ℕ => (1 : ℚ)) v * env.fittingMask v *
            (out.skin_verts t v k - inp.verts t v k) ^ 2)
        = sum3 inp.nF env.nV 3
          (fun t v k => env.fittingMask v *
            (out.skin_verts t v k - inp.verts t v k) ^ 2) := by
      intro out
      unfold sum3
      refine Finset.sum_congr rfl fun t _ => Finset.sum_congr rfl fun v _ =>
        Finset.sum_congr rfl fun k _ => ?_
      ring
    have hden : (∑ v ∈ Finset.range env.nV, env.fittingMask v * (fun _ : ℕ => (1 : ℚ)) v)
        = ∑ v ∈ Finset.range env.nV, env.fittingMask v :=
      Finset.sum_congr rfl fun v _ => mul_one _
    rw [hnum, hden]

/-- The generic pose-prior regularizer term as claim C7 states it:
`compute_pose_loss` evaluated on the rotation-masked pose whenever
rotation-only mode is active, scaled by `pose_reg_factor`. -/
def poseRegClaimed (env : FitterEnv) (inp : FitIn) (cfg : Cfg) : ℚ :=
  let posesIn := if cfg.rot_only then rotOnlyPoses inp.poses else inp.poses
  cfg.pose_reg_factor * (cfg.l_pose_loss * env.poseLoss posesIn)

/-- An environment whose pose prior reads pose channel 3 of frame 0
(a channel the rotation mask zeroes). -/
def envC7 : FitterEnv :=
  ⟨1, 1, fun _ _ _ _ => ⟨fun _ _ _ => 0, fun _ _ _ => 0⟩,
    fun _ => 0, fun _ => 0, fun _ => 0, fun _ => 0, fun p => p 0 3⟩

/-- A one-frame batch whose pose has value 5 in channel 3 and 0
elsewhere. -/
def inpC7 : FitIn :=
  ⟨1, 4, fun _ c => if c = 3 then (5 : ℚ) else 0, fun _ _ => 0, fun _ _ => 0,
    fun _ _ _ => 0, fun _ _ _ => 0⟩

/-- The warm-start (rotation-only) configuration with the pose-prior
weight overridden to 1 by the caller (the configuration surface allows
overriding any key). -/
def cfgC7 : Cfg := { cfgWarm with l_pose_loss := 1 }

/-- C7 counterexample: aligner.py line 351 passes the **raw** `poses` to
`compute_pose_loss`, not the rotation-masked `poses_in`: with rotation-only
mode active, the code's pose-prior term on `envC7`/`inpC7` is 50, while
the claimed term — the prior evaluated on the rotation-masked pose —
is 0. -/
theorem claim_C7_counterexample :
    (fitting_loss envC7 inpC7 cfgC7).pose_loss ≠ poseRegClaimed envC7 inpC7 cfgC7 := by
  have h1 : (fitting_loss envC7 inpC7 cfgC7).pose_loss = 50 := by
    norm_num [fitting_loss, envC7, inpC7, cfgC7, cfgWarm]
  have h2 : poseRegClaimed envC7 inpC7 cfgC7 = 0 := by
    norm_num [poseRegClaimed, envC7, inpC7, cfgC7, cfgWarm, rotOnlyPoses, jointMask]
  rw [h1, h2]
  norm_num

/-- C7 (amended): in `compose_loss` the scapula and spine regularizers
are evaluated on the (possibly rotation-masked) pose `poses_in`, while
the generic pose-prior regularizer is evaluated on the **raw** pose; each
of the three is scaled by `cfg.pose_reg_factor` on top of its own
weight. -/
theorem claim_C7_amended (env : FitterEnv) (inp : FitIn) (cfg : Cfg) :
    (fitting_loss env inp cfg).scapula_loss =
      cfg.pose_reg_factor * (cfg.l_scapula_loss *
        env.scapulaLoss (if cfg.rot_only then rotOnlyPoses inp.poses else inp.poses)) ∧
    (fitting_loss env inp cfg).spine_loss =
      cfg.pose_reg_factor * (cfg.l_spine_loss *
        env.spineLoss (if cfg.rot_only then rotOnlyPoses inp.poses else inp.poses)) ∧
    (fitting_loss env inp cfg).pose_loss =
      cfg.pose_reg_factor * (cfg.l_pose_loss * env.poseLoss inp.poses) :=
  ⟨rfl, rfl, rfl⟩

/-- C8: the temporal-smoothness term is present exactly when the batch
has more than one frame — for a single-frame batch the `time_loss` entry
is absent and the composed total simply omits it (zero contribution, and
the embedding never forms the empty consecutive-difference tensor) — and
for a batch with more than one frame it equals
`l_time_loss * mse(poses[1:], poses[:-1])`, the weighted mean-squared
difference between consecutive frames' pose vectors. -/
theorem claim_C8_time_loss (env : FitterEnv) (inp : FitIn) (cfg : Cfg) :
    (fitting_loss env inp cfg).time_loss =
      (if 1 < inp.nF then
        some (cfg.l_time_loss * mse2 (inp.nF - 1) inp.nQ
          (fun t c => inp.poses (t + 1) c) (fun t c => inp.poses t c))
      else none) ∧
    totalLoss (fitting_loss env inp cfg) =
      (fitting_loss env inp cfg).verts_loss + (fitting_loss env inp cfg).verts_loss_loose +
      (fitting_loss env inp cfg).joint_loss +
      (if 1 < inp.nF then
        cfg.l_time_loss * mse2 (inp.nF - 1) inp.nQ
          (fun t c => inp.poses (t + 1) c) (fun t c => inp.poses t c)
      else 0) +
      (fitting_loss env inp cfg).scapula_loss + (fitting_loss env inp cfg).spine_loss +
      (fitting_loss env inp cfg).pose_loss := by
  constructor
  · rfl
  · unfold totalLoss
    by_cases h : 1 < inp.nF
    · simp [fitting_loss, h]
    · simp [fitting_loss, h]

end SkelFit

namespace MotLoader

/-- C9 counterexample: `storage_to_numpy` does **not** return an empty
result on bad input — `open(storage_file, 'r')` at mot_loader.py line 42
has no guard, so a missing file raises `FileNotFoundError`, and a file
whose header never contains `endheader` leaves
`line_number_of_line_containing_endheader` unassigned, so line 56 raises
`NameError`. -/
theorem claim_C9_counterexample :
    storage_to_numpy (fun _ _ => (0 : ℕ)) PyFile.missing 0
      = PyResult.exn "FileNotFoundError" ∧
    storage_to_numpy (fun _ _ => (0 : ℕ)) (PyFile.lines ["x"]) 0
      = PyResult.exn "NameError" :=
  ⟨rfl, by decide⟩

/-- C9 (amended): of the two motion-file loading functions, only
`read_header` is guarded: it returns an empty list for a missing path, for
an unreadable file (logging the exception), and for a file with at most 10
lines (the `IndexError` of `lines[10]` is caught and logged).
`storage_to_numpy` raises instead: `FileNotFoundError` on a missing path,
`OSError` on an unreadable file, and `NameError` when no line contains
`endheader`. -/
theorem claim_C9_amended {α : Type} (gen : Option (List String) → ℕ → α)
    (excess : ℕ) (ls ls10 : List String)
    (hscan : scanEndheader ls 0 = none)
    (h10 : ls10.length ≤ 10) :
    read_header PyFile.missing = [] ∧
    read_header PyFile.unreadable = [] ∧
    read_header (PyFile.lines ls10) = [] ∧
    storage_to_numpy gen PyFile.missing excess = PyResult.exn "FileNotFoundError" ∧
    storage_to_numpy gen PyFile.unreadable excess = PyResult.exn "OSError" ∧
    storage_to_numpy gen (PyFile.lines ls) excess = PyResult.exn "NameError" := by
  refine ⟨rfl, rfl, ?_, rfl, rfl, ?_⟩
  · have hget : ls10[10]? = none := List.getElem?_eq_none h10
    simp [read_header, hget]
  · simp [storage_to_numpy, hscan]

/-- Witness for C9 (amended) on a one-line file without `endheader` and an
empty file. -/
theorem claim_C9_amended_witness :
    scanEndheader ["x"] 0 = none ∧ ([] : List String).length ≤ 10 ∧
    (read_header PyFile.missing = [] ∧
    read_header PyFile.unreadable = [] ∧
    read_header (PyFile.lines []) = [] ∧
    storage_to_numpy (fun _ _ => (0 : ℕ)) PyFile.missing 2 = PyResult.exn "FileNotFoundError" ∧
    storage_to_numpy (fun _ _ => (0 : ℕ)) PyFile.unreadable 2 = PyResult.exn "OSError" ∧
    storage_to_numpy (fun _ _ => (0 : ℕ)) (PyFile.lines ["x"]) 2 = PyResult.exn "NameError") :=
  ⟨by decide, by decide,
    claim_C9_amended (fun _ _ => (0 : ℕ)) 2 ["x"] [] (by decide) (by decide)⟩

end MotLoader

namespace Nimble2Skel

/-- C10: `mot2skel` converts only the pose table from degrees to radians
(`np.pi * pose_params / 180`); the translation, taken from the
`pelvis_tx`/`pelvis_ty`/`pelvis_tz` columns, is returned in the file's
original units; and every SKEL pose parameter whose name does not appear
in the header list stays exactly zero for all frames (the raw column is
never written, and `π * 0 / 180 = 0`). -/
theorem claim_C10_mot2skel (names headers : List String) (mot : ℕ → ℕ → ℝ)
    (ix iy iz : ℕ)
    (hx : header2ind headers "pelvis_tx" = some ix)
    (hy : header2ind headers "pelvis_ty" = some iy)
    (hz : header2ind headers "pelvis_tz" = some iz)
    (d : ℕ) (nm : String) (hd : names.get? d = some nm)
    (habs : header2ind headers nm = none) :
    mot2skel Real.pi names headers mot
      = some (fun t d' => Real.pi * motPoseRaw names headers mot t d' / 180,
              fun t k => mot t (if k = 0 then ix else if k = 1 then iy else iz)) ∧
    (∀ t, Real.pi * motPoseRaw names headers mot t d / 180 = 0) := by
  constructor
  · unfold mot2skel
    rw [hx, hy, hz]
  · intro t
    have hraw : motPoseRaw names headers mot t d = 0 := by
      simp only [motPoseRaw]
      rw [hd]
      simp [habs]
    rw [hraw, mul_zero, zero_div]

/-- Witness for C10: a four-column motion file whose only SKEL pose
parameter name is absent from the headers. -/
theorem claim_C10_mot2skel_witness :
    header2ind ["time", "pelvis_tx", "pelvis_ty", "pelvis_tz"] "pelvis_tx" = some 1 ∧
    header2ind ["time", "pelvis_tx", "pelvis_ty", "pelvis_tz"] "pelvis_ty" = some 2 ∧
    header2ind ["time", "pelvis_tx", "pelvis_ty", "pelvis_tz"] "pelvis_tz" = some 3 ∧
    ["knee_angle_r"].get? 0 = some "knee_angle_r" ∧
    header2ind ["time", "pelvis_tx", "pelvis_ty", "pelvis_tz"] "knee_angle_r" = none ∧
    (mot2skel Real.pi ["knee_angle_r"] ["time", "pelvis_tx", "pelvis_ty", "pelvis_tz"]
        (fun t c => ((t + c : ℕ) : ℝ))
      = some (fun t d' => Real.pi *
                motPoseRaw ["knee_angle_r"] ["time", "pelvis_tx", "pelvis_ty", "pelvis_tz"]
                  (fun t c => ((t + c : ℕ) : ℝ)) t d' / 180,
              fun t k => (fun t c => ((t + c : ℕ) : ℝ)) t
                (if k = 0 then 1 else if k = 1 then 2 else 3)) ∧
    (∀ t, Real.pi *
        motPoseRaw ["knee_angle_r"] ["time", "pelvis_tx", "pelvis_ty", "pelvis_tz"]
          (fun t c => ((t + c : ℕ) : ℝ)) t 0 / 180 = 0)) :=
  ⟨by decide, by decide, by decide, by decide, by decide,
    claim_C10_mot2skel ["knee_angle_r"] ["time", "pelvis_tx", "pelvis_ty", "pelvis_tz"]
      (fun t c => ((t + c : ℕ) : ℝ)) 1 2 3 (by decide) (by decide) (by decide)
      0 "knee_angle_r" (by decide) (by decide)⟩

end Nimble2Skel
